/-
Verification of the Greenhouse MCP server (greenhouse-mcp) against its
natural-language specification.

The development shallowly embeds the two Python modules that carry the
program's logic:

* `src/src/greenhouse_client.py` — the `GreenhouseClient` class: client-side
  rate limiter, request execution with 429 retry, and the per-endpoint
  query-parameter / JSON-body builders.
* `src/src/greenhouse_mcp.py` — the FastMCP tool adapter: argument shaping
  for `create_candidate` / `update_candidate` and 1:1 forwarding to the
  Client.

Python mappings (`dict`) with string keys are embedded as insertion-ordered
association lists `List (String × JsonValue)`; wall-clock time (`time.time()`)
is embedded as `ℚ`; `time.sleep` is idealized as exact (sleeping `d` starting
at `t` makes the next `time.time()` read `t + d`).  HTTP traffic is embedded
by scripting the sequence of responses the server would return; each entry
into `_make_request` consumes one scripted response.
-/
import Mathlib

namespace GreenhouseMCP

/-! ## JSON values

Request bodies and query parameters are Python dicts of heterogeneous
values; both are embedded with this JSON value type.  Python dicts preserve
insertion order, so objects are ordered association lists. -/

inductive JsonValue where
  | null
  | bool (b : Bool)
  | num (n : Int)
  | str (s : String)
  | arr (elems : List JsonValue)
  | obj (fields : List (String × JsonValue))

/-- The keys of an embedded Python dict, in insertion order. -/
def keys (l : List (String × JsonValue)) : List String := l.map Prod.fst

/-! ## Python truthiness-guarded parameter assembly

Every optional filter in `greenhouse_client.py` is added with
`if arg: params[key] = arg` (resp. `data[key] = ...`), i.e. guarded by
Python truthiness: `None`, `""`, `0` and `[]` are all falsy.  `none` embeds
an argument the caller did not supply (Python `None`). -/

/-- `if arg: params[key] = arg` for a `str` argument. -/
def optStrParam (key : String) (v : Option String) : List (String × JsonValue) :=
  match v with
  | none => []
  | some s => if s = "" then [] else [(key, .str s)]

/-- `if arg: params[key] = arg` for an `int` argument. -/
def optIntParam (key : String) (v : Option Int) : List (String × JsonValue) :=
  match v with
  | none => []
  | some n => if n = 0 then [] else [(key, .num n)]

/-! ## Rate limiter (`GreenhouseClient._rate_limit`, greenhouse_client.py 30–43)

State is `self._request_count` and `self._last_request_time`; the constants
are `self._rate_limit_window = 10` and `self._rate_limit_max = 50`
(greenhouse_client.py 25–28). -/

structure RLState where
  requestCount : Nat
  lastRequestTime : ℚ
deriving DecidableEq

/-- `self._rate_limit_window = 10` -/
def rateLimitWindow : ℚ := 10

/-- `self._rate_limit_max = 50` -/
def rateLimitMax : Nat := 50

/-- `GreenhouseClient._rate_limit`, called at time `now` (the value
`time.time()` returns at line 31).  Returns the duration slept (0 when no
wait was forced) and the post-call state.  `time.sleep` is idealized as
exact, so the `time.time()` at line 41 reads `now + sleepTime`. -/
def rateLimit (s : RLState) (now : ℚ) : ℚ × RLState :=
  -- lines 32–34: window expiry reset
  let s1 : RLState :=
    if now - s.lastRequestTime > rateLimitWindow then ⟨0, now⟩ else s
  -- lines 36–41: forced wait when the counter reached the ceiling
  if s1.requestCount ≥ rateLimitMax then
    let sleepTime := rateLimitWindow - (now - s1.lastRequestTime)
    if sleepTime > 0 then
      -- lines 39–41 then 43: sleep, reset, and count the current call
      (sleepTime, ⟨0 + 1, now + sleepTime⟩)
    else
      (0, ⟨s1.requestCount + 1, s1.lastRequestTime⟩)
  else
    -- line 43
    (0, ⟨s1.requestCount + 1, s1.lastRequestTime⟩)

/-! ## Python `int(str)` (used on the `Retry-After` header, line 67)

`int(response.headers.get("Retry-After", 10))`: when the header is absent the
default `10` is already an `int`; when present, Python's `int()` is applied
to the header string: surrounding whitespace is stripped, an optional single
sign is allowed, then a non-empty run of decimal digits in which single
underscores may appear between digits; anything else raises `ValueError`.
(Python also accepts non-ASCII decimal digits and some extra unicode
whitespace; no input considered here contains either.) -/

def isPyWhitespace (c : Char) : Bool :=
  c = ' ' || c = '\t' || c = '\n' || c = '\r' || c = '\x0b' || c = '\x0c'

/-- Digit run continuation: `(digit | '_' digit)*`, no trailing or doubled
underscore. Accumulates the decimal value. -/
def pyDigitsRest (acc : Nat) : List Char → Option Nat
  | [] => some acc
  | '_' :: c :: rest =>
      if c.isDigit then pyDigitsRest (acc * 10 + (c.toNat - 48)) rest else none
  | c :: rest =>
      if c.isDigit then pyDigitsRest (acc * 10 + (c.toNat - 48)) rest else none

/-- A digit run must start with a digit. -/
def pyDigits : List Char → Option Nat
  | [] => none
  | c :: rest => if c.isDigit then pyDigitsRest (c.toNat - 48) rest else none

/-- Python `int()` on a string: `some n` on success, `none` where Python
raises `ValueError`. -/
def pyIntOfString? (s : String) : Option Int :=
  let cs := (s.data.dropWhile isPyWhitespace).reverse.dropWhile isPyWhitespace |>.reverse
  match cs with
  | '+' :: rest => (pyDigits rest).map Int.ofNat
  | '-' :: rest => (pyDigits rest).map (fun n => -(n : Int))
  | rest => (pyDigits rest).map Int.ofNat

/-! ## Request execution (`GreenhouseClient._make_request`, lines 45–76) -/

/-- A request as `_make_request` receives it: method, endpoint path, optional
query parameters, optional JSON body. -/
structure HttpRequest where
  method : String
  endpoint : String
  params : Option (List (String × JsonValue))
  jsonData : Option (List (String × JsonValue))

/-- One scripted HTTP response: status code, the `Retry-After` header value
when the server sent one, and the response's JSON content (what
`response.json()` yields; 204 responses have no content). -/
structure HttpResponse where
  status : Nat
  retryAfter : Option String
  content : JsonValue

/-- Errors `_make_request` can raise. -/
inductive RequestError where
  /-- `response.raise_for_status()` (line 71): `httpx.HTTPStatusError`
  carrying the original status and body. -/
  | httpStatus (status : Nat) (content : JsonValue)
  /-- `ValueError` from `int()` on an unparseable `Retry-After` value
  (line 67). -/
  | valueError (headerValue : String)
  /-- `ValueError` from `time.sleep` on a negative duration (line 68). -/
  | negativeSleep (n : Int)
  /-- The response script ran out: the 429 retry chain was still running
  (the code has no attempt cap, so with an all-429 script it never
  returns). -/
  | outOfResponses

/-- `int(response.headers.get("Retry-After", 10))` (line 67). -/
def retryAfterValue : Option String → Except RequestError Int
  | none => .ok 10
  | some s =>
      match pyIntOfString? s with
      | some n => .ok n
      | none => .error (.valueError s)

/-- `retryAfterValue` as an `Option`, for stating traces. -/
def retryAfterOk (r : HttpResponse) : Option Int :=
  match retryAfterValue r.retryAfter with
  | .ok n => some n
  | .error _ => none

/-- One entry of `_make_request`.  Each entry first calls `self._rate_limit()`
(line 52) — so each `Attempt` in a trace is one charge against the local
rate limiter — then sends `request` and, when the response was a 429 whose
`Retry-After` parsed to a non-negative `n`, performs `time.sleep n`
(recorded as `slept = some n`) before re-entering. -/
structure Attempt where
  request : HttpRequest
  slept : Option Int

/-- `GreenhouseClient._make_request` run against a script of responses
(one consumed per entry).  Returns the trace of attempts and the outcome.
Control flow of lines 66–76: a 429 response triggers
read-header / sleep / recurse with the same `method, endpoint, params,
json_data`; `raise_for_status` raises for any non-2xx status (httpx raises
unless `is_success`); a 204 returns the empty dict; otherwise the JSON
content is returned. -/
def makeRequest (req : HttpRequest) :
    List HttpResponse → List Attempt × Except RequestError JsonValue
  | [] => ([], .error .outOfResponses)
  | r :: rest =>
      if r.status = 429 then
        match retryAfterValue r.retryAfter with
        | .error e => ([⟨req, none⟩], .error e)
        | .ok n =>
            if n < 0 then ([⟨req, none⟩], .error (.negativeSleep n))
            else
              let out := makeRequest req rest
              (⟨req, some n⟩ :: out.1, out.2)
      else if 200 ≤ r.status ∧ r.status < 300 then
        if r.status = 204 then ([⟨req, none⟩], .ok (.obj []))
        else ([⟨req, none⟩], .ok r.content)
      else
        ([⟨req, none⟩], .error (.httpStatus r.status r.content))

/-! ## Endpoint parameter / body builders (greenhouse_client.py 78–271)

Each builder transcribes the dict-assembly of the corresponding Client
method; the resulting request is `_make_request` with the shown method and
endpoint. -/

/-- `list_jobs` (lines 78–97): params for `GET jobs`. -/
def list_jobs_params (per_page page : Int)
    (created_before created_after status : Option String) :
    List (String × JsonValue) :=
  [("per_page", .num per_page), ("page", .num page)]
    ++ optStrParam "created_before" created_before
    ++ optStrParam "created_after" created_after
    ++ optStrParam "status" status

/-- `if candidate_ids: params["candidate_ids"] = ",".join(map(str,
candidate_ids))` (lines 121–122): `str` of a Python `int` is its decimal
form, matching `toString` on `Int`. -/
def candidateIdsParam (v : Option (List Int)) : List (String × JsonValue) :=
  match v with
  | none => []
  | some ids =>
      if ids.isEmpty then []
      else [("candidate_ids", .str (String.intercalate "," (ids.map toString)))]

/-- `list_candidates` (lines 102–124): params for `GET candidates`. -/
def list_candidates_params (per_page page : Int)
    (created_before created_after email : Option String)
    (candidate_ids : Option (List Int)) : List (String × JsonValue) :=
  [("per_page", .num per_page), ("page", .num page)]
    ++ optStrParam "created_before" created_before
    ++ optStrParam "created_after" created_after
    ++ optStrParam "email" email
    ++ candidateIdsParam candidate_ids

/-- `list_applications` (lines 135–160): params for `GET applications`. -/
def list_applications_params (per_page page : Int)
    (created_before created_after : Option String)
    (job_id candidate_id : Option Int)
    (status : Option String) : List (String × JsonValue) :=
  [("per_page", .num per_page), ("page", .num page)]
    ++ optStrParam "created_before" created_before
    ++ optStrParam "created_after" created_after
    ++ optIntParam "job_id" job_id
    ++ optIntParam "candidate_id" candidate_id
    ++ optStrParam "status" status

/-- `list_users` (lines 258–271): params for `GET users`. -/
def list_users_params (per_page page : Int) (email : Option String) :
    List (String × JsonValue) :=
  [("per_page", .num per_page), ("page", .num page)]
    ++ optStrParam "email" email

/-- `list_departments` (lines 236–245) and `list_offices` (247–256): only
pagination. -/
def list_departments_params (per_page page : Int) : List (String × JsonValue) :=
  [("per_page", .num per_page), ("page", .num page)]

/-- `advance_application` (lines 165–181): JSON body for
`POST applications/{id}/advance`; `from_stage_id` always,
`to_stage_id` only when truthy. -/
def advance_application_body (from_stage_id : Int) (to_stage_id : Option Int) :
    List (String × JsonValue) :=
  [("from_stage_id", .num from_stage_id)]
    ++ optIntParam "to_stage_id" to_stage_id

/-- `reject_application` (lines 183–202): JSON body for
`POST applications/{id}/reject`, built from whichever optional fields are
truthy. -/
def reject_application_body (rejection_reason_id : Option Int)
    (notes : Option String) (rejection_email_id : Option Int) :
    List (String × JsonValue) :=
  optIntParam "rejection_reason_id" rejection_reason_id
    ++ optStrParam "notes" notes
    ++ optIntParam "rejection_email_send_email_at" rejection_email_id

/-! ## Client construction (`GreenhouseClient.__init__`, lines 12–28) -/

/-- The standard base64 alphabet, as used by `base64.b64encode`. -/
def base64Alphabet : List Char :=
  "ABCDEFGHIJKLMNOPQRSTUVWXYZabcdefghijklmnopqrstuvwxyz0123456789+/".data

/-- One output character of base64 (6-bit group value to character). -/
def b64Char (n : Nat) : Char := base64Alphabet.getD n '?'

/-- Standard base64 of a byte sequence, with `=` padding — the semantics of
`base64.b64encode` (line 19). -/
def base64Encode : List Nat → String
  | [] => ""
  | [a] =>
      String.mk [b64Char (a / 4), b64Char (a % 4 * 16), '=', '=']
  | [a, b] =>
      String.mk [b64Char (a / 4), b64Char (a % 4 * 16 + b / 16),
                 b64Char (b % 16 * 4), '=']
  | a :: b :: c :: rest =>
      String.mk [b64Char (a / 4), b64Char (a % 4 * 16 + b / 16),
                 b64Char (b % 16 * 4 + c / 64), b64Char (c % 64)]
        ++ base64Encode rest

/-- UTF-8 bytes of one character (`str.encode()` semantics). -/
def utf8CharBytes (c : Char) : List Nat :=
  let n := c.toNat
  if n < 128 then [n]
  else if n < 2048 then [192 + n / 64, 128 + n % 64]
  else if n < 65536 then [224 + n / 4096, 128 + n / 64 % 64, 128 + n % 64]
  else [240 + n / 262144, 128 + n / 4096 % 64, 128 + n / 64 % 64, 128 + n % 64]

/-- UTF-8 bytes of a string (`f"{self.api_key}:".encode()`, line 19). -/
def utf8Bytes (s : String) : List Nat := s.data.flatMap utf8CharBytes

/-- `os.getenv("GREENHOUSE_BASE_URL", "https://harvest.greenhouse.io/v1")`
default (line 17). -/
def defaultBaseUrl : String := "https://harvest.greenhouse.io/v1"

/-- The fields `__init__` computes. -/
structure ClientConfig where
  apiKey : String
  baseUrl : String
  authorizationHeader : String
  contentTypeHeader : String

/-- `GreenhouseClient.__init__` (lines 12–28).  `apiKeyArg` is the `api_key`
argument (`none` = not passed / passed as `None`), `envApiKey` and
`envBaseUrl` the values of `GREENHOUSE_API_KEY` / `GREENHOUSE_BASE_URL` in
the environment (`none` = unset; `os.getenv` of an unset variable is
`None`).  `api_key or os.getenv(...)` falls through on a falsy (empty)
argument; `if not self.api_key` rejects a still-falsy result with
`ValueError("Greenhouse API key is required")` — the spec's
`ConfigurationError`. -/
def clientInit (apiKeyArg envApiKey envBaseUrl : Option String) :
    Except String ClientConfig :=
  let resolved : Option String :=
    match apiKeyArg with
    | some k => if k = "" then envApiKey else some k
    | none => envApiKey
  match resolved with
  | none => .error "Greenhouse API key is required"
  | some k =>
      if k = "" then .error "Greenhouse API key is required"
      else
        .ok { apiKey := k
              baseUrl := envBaseUrl.getD defaultBaseUrl
              authorizationHeader :=
                "Basic " ++ base64Encode (utf8Bytes (k ++ ":"))
              contentTypeHeader := "application/json" }

/-! ## Tool adapter argument shaping (greenhouse_mcp.py)

The `create_candidate` / `update_candidate` tools shape flat arguments into
the nested record shape before forwarding; every key is added under a
truthiness guard. -/

/-- `if tags: data["tags"] = tags` — shared by both candidate tools. -/
def optTagsField (v : Option (List String)) : List (String × JsonValue) :=
  match v with
  | none => []
  | some tags => if tags.isEmpty then [] else [("tags", .arr (tags.map .str))]

/-- `if email: data["email_addresses"] = [{"value": email, "type":
"personal"}]` — shared by both candidate tools. -/
def emailAddressesField (v : Option String) : List (String × JsonValue) :=
  match v with
  | none => []
  | some e =>
      if e = "" then []
      else [("email_addresses",
             .arr [.obj [("value", .str e), ("type", .str "personal")]])]

/-- `if phone: data["phone_numbers"] = [{"value": phone, "type": "mobile"}]`
— shared by both candidate tools. -/
def phoneNumbersField (v : Option String) : List (String × JsonValue) :=
  match v with
  | none => []
  | some p =>
      if p = "" then []
      else [("phone_numbers",
             .arr [.obj [("value", .str p), ("type", .str "mobile")]])]

/-- The `candidate_data` dict built by the `create_candidate` tool
(greenhouse_mcp.py 200–222): `first_name` / `last_name` always; `email` and
`phone` shaped into `{value, type}` lists when truthy; `company`, `title`,
`tags` when truthy. -/
def create_candidate_body (first_name last_name : String)
    (email phone company title : Option String)
    (tags : Option (List String)) : List (String × JsonValue) :=
  [("first_name", .str first_name), ("last_name", .str last_name)]
    ++ emailAddressesField email
    ++ phoneNumbersField phone
    ++ optStrParam "company" company
    ++ optStrParam "title" title
    ++ optTagsField tags

/-- The `update_data` dict built by the `update_candidate` tool
(greenhouse_mcp.py 267–292): every field is optional and added only when
truthy; email/phone are shaped as in `create_candidate_body`. -/
def update_candidate_body (first_name last_name email phone company title :
    Option String) (tags : Option (List String)) : List (String × JsonValue) :=
  optStrParam "first_name" first_name
    ++ optStrParam "last_name" last_name
    ++ emailAddressesField email
    ++ phoneNumbersField phone
    ++ optStrParam "company" company
    ++ optStrParam "title" title
    ++ optTagsField tags

/-- The request the `create_candidate` tool causes: the shaped body is
forwarded verbatim to `GreenhouseClient.create_candidate` (greenhouse_mcp.py
224), which issues `POST candidates` with it as the JSON body
(greenhouse_client.py 129–130). -/
def tool_create_candidate_request (first_name last_name : String)
    (email phone company title : Option String)
    (tags : Option (List String)) : HttpRequest :=
  { method := "POST"
    endpoint := "candidates"
    params := none
    jsonData := some (create_candidate_body first_name last_name email phone
      company title tags) }

/-- The request the `update_candidate` tool causes: the shaped body is
forwarded verbatim to `GreenhouseClient.update_candidate` (greenhouse_mcp.py
294), which issues `PATCH candidates/{id}` with it as the JSON body
(greenhouse_client.py 132–133). -/
def tool_update_candidate_request (candidate_id : Int)
    (first_name last_name email phone company title : Option String)
    (tags : Option (List String)) : HttpRequest :=
  { method := "PATCH"
    endpoint := "candidates/" ++ toString candidate_id
    params := none
    jsonData := some (update_candidate_body first_name last_name email phone
      company title tags) }

/-! ## The Client's method table and the adapter's forwarding targets

Python resolves `gh_client.<name>` by attribute lookup on the
`GreenhouseClient` instance; a name not defined in the class raises
`AttributeError`.  `greenhouseClientMethods` transcribes the `def`s of
`class GreenhouseClient` (greenhouse_client.py 12–271);
`adapterForwards` transcribes, for each `@mcp.tool` of greenhouse_mcp.py,
the Client method its body invokes. -/

def greenhouseClientMethods : List String :=
  ["__init__", "_rate_limit", "_make_request",
   "list_jobs", "get_job",
   "list_candidates", "get_candidate", "create_candidate", "update_candidate",
   "list_applications", "get_application",
   "advance_application", "reject_application",
   "add_note_to_candidate", "add_note_to_application",
   "list_departments", "list_offices", "list_users"]

/-- `(tool name, Client method called in the tool's body)` for every tool
registered in greenhouse_mcp.py. -/
def adapterForwards : List (String × String) :=
  [("list_jobs", "list_jobs"), ("get_job", "get_job"),
   ("list_candidates", "list_candidates"), ("get_candidate", "get_candidate"),
   ("create_candidate", "create_candidate"),
   ("update_candidate", "update_candidate"),
   ("list_applications", "list_applications"),
   ("get_application", "get_application"),
   ("advance_application", "advance_application"),
   ("reject_application", "reject_application"),
   ("add_note_to_candidate", "add_note_to_candidate"),
   ("add_note_to_application", "add_note_to_application"),
   ("list_departments", "list_departments"), ("list_offices", "list_offices"),
   ("list_users", "list_users"),
   ("list_job_stages", "list_job_stages"), ("get_job_stage", "get_job_stage")]

/-- Attribute lookup on a `GreenhouseClient` instance: does the class define
the method? -/
def clientHasMethod (name : String) : Bool :=
  greenhouseClientMethods.contains name

/-! ## Helper lemmas -/

theorem keys_append (l₁ l₂ : List (String × JsonValue)) :
    keys (l₁ ++ l₂) = keys l₁ ++ keys l₂ :=
  List.map_append _ _ _

theorem keys_nil : keys [] = [] := rfl

theorem keys_cons (k : String) (v : JsonValue) (l : List (String × JsonValue)) :
    keys ((k, v) :: l) = k :: keys l := rfl

theorem mem_keys_optStrParam (s k : String) (v : Option String) :
    s ∈ keys (optStrParam k v) ↔ s = k ∧ ∃ t, v = some t ∧ t ≠ "" := by
  cases v with
  | none => simp [optStrParam, keys]
  | some t =>
      by_cases ht : t = ""
      · simp [optStrParam, keys, ht]
      · simp [optStrParam, keys, ht]

theorem mem_keys_optIntParam (s k : String) (v : Option Int) :
    s ∈ keys (optIntParam k v) ↔ s = k ∧ ∃ n, v = some n ∧ n ≠ 0 := by
  cases v with
  | none => simp [optIntParam, keys]
  | some n =>
      by_cases hn : n = 0
      · simp [optIntParam, keys, hn]
      · simp [optIntParam, keys, hn]

theorem mem_keys_candidateIdsParam (s : String) (v : Option (List Int)) :
    s ∈ keys (candidateIdsParam v) ↔
      s = "candidate_ids" ∧ ∃ ids, v = some ids ∧ ids ≠ [] := by
  cases v with
  | none => simp [candidateIdsParam, keys]
  | some ids =>
      by_cases hl : ids.isEmpty
      · simp_all [candidateIdsParam, keys, List.isEmpty_iff]
      · simp_all [candidateIdsParam, keys, List.isEmpty_iff]

theorem mem_keys_emailAddressesField (s : String) (v : Option String) :
    s ∈ keys (emailAddressesField v) ↔
      s = "email_addresses" ∧ ∃ t, v = some t ∧ t ≠ "" := by
  cases v with
  | none => simp [emailAddressesField, keys]
  | some e =>
      by_cases he : e = ""
      · simp [emailAddressesField, keys, he]
      · simp [emailAddressesField, keys, he]

theorem mem_keys_phoneNumbersField (s : String) (v : Option String) :
    s ∈ keys (phoneNumbersField v) ↔
      s = "phone_numbers" ∧ ∃ t, v = some t ∧ t ≠ "" := by
  cases v with
  | none => simp [phoneNumbersField, keys]
  | some p =>
      by_cases hp : p = ""
      · simp [phoneNumbersField, keys, hp]
      · simp [phoneNumbersField, keys, hp]

theorem mem_keys_optTagsField (s : String) (v : Option (List String)) :
    s ∈ keys (optTagsField v) ↔ s = "tags" ∧ ∃ t, v = some t ∧ t ≠ [] := by
  cases v with
  | none => simp [optTagsField, keys]
  | some t =>
      by_cases ht : t.isEmpty
      · simp_all [optTagsField, keys, List.isEmpty_iff]
      · simp_all [optTagsField, keys, List.isEmpty_iff]

/-! ## The claims -/

/-- C1: the spec asserts that the Client exposes `list_job_stages` /
`get_job_stage` endpoint methods and that the adapter's tools of the same
names forward to them.  The adapter does forward 1:1 — each job-stage tool
invokes the Client method of its own name — but `GreenhouseClient` defines
neither method, so attribute lookup on the client fails (an
`AttributeError` at every invocation of these tools) and no
`GET job_stages` request is ever issued. -/
theorem job_stage_tools_target_missing_client_methods :
    ("list_job_stages", "list_job_stages") ∈ adapterForwards ∧
    ("get_job_stage", "get_job_stage") ∈ adapterForwards ∧
    clientHasMethod "list_job_stages" = false ∧
    clientHasMethod "get_job_stage" = false := by decide

/-- C2: with the counter at the ceiling inside the current window, the call
is blocked for exactly the remainder of the window (so it proceeds at
`window start + window_seconds`), and afterwards the counter is 1 (the
just-made call) with the window start at the post-wait time; a call arriving
strictly more than `window_seconds` after the window start has the counter
reset before being counted, ending at 1 as well. -/
theorem rate_limit_window_exhaustion_blocks (s : RLState) (now : ℚ) :
    (s.requestCount ≥ rateLimitMax → s.lastRequestTime ≤ now →
      now - s.lastRequestTime < rateLimitWindow →
      (rateLimit s now).1 = rateLimitWindow - (now - s.lastRequestTime) ∧
      now + (rateLimit s now).1 = s.lastRequestTime + rateLimitWindow ∧
      ((rateLimit s now).2).requestCount = 1 ∧
      ((rateLimit s now).2).lastRequestTime = now + (rateLimit s now).1) ∧
    (now - s.lastRequestTime > rateLimitWindow →
      ((rateLimit s now).2).requestCount = 1 ∧
      ((rateLimit s now).2).lastRequestTime = now) := by
  constructor
  · intro hc _hle hlt
    have h1 : ¬ now - s.lastRequestTime > rateLimitWindow := not_lt.mpr hlt.le
    have hpos : rateLimitWindow - (now - s.lastRequestTime) > 0 :=
      sub_pos.mpr hlt
    simp only [rateLimit, if_neg h1, if_pos hc, if_pos hpos]
    refine ⟨?_, ?_, ?_, ?_⟩ <;> first | rfl | trivial | ring
  · intro hgt
    have hc : ¬ (0 ≥ rateLimitMax) := by simp [rateLimitMax]
    simp [rateLimit, if_pos hgt, hc]

/-- Witness for `rate_limit_window_exhaustion_blocks`: a 51st call at `now =
4` in a window started at 0 sleeps 6 s, resuming at time 10 with counter 1;
a call at `now = 11` against a window started at 0 resets to counter 1. -/
theorem rate_limit_window_exhaustion_blocks_witness :
    ((rateLimit ⟨50, 0⟩ 4).1 = rateLimitWindow - ((4 : ℚ) - 0) ∧
     (4 : ℚ) + (rateLimit ⟨50, 0⟩ 4).1 = 0 + rateLimitWindow ∧
     ((rateLimit ⟨50, 0⟩ 4).2).requestCount = 1 ∧
     ((rateLimit ⟨50, 0⟩ 4).2).lastRequestTime = 4 + (rateLimit ⟨50, 0⟩ 4).1) ∧
    (((rateLimit ⟨3, 0⟩ 11).2).requestCount = 1 ∧
     ((rateLimit ⟨3, 0⟩ 11).2).lastRequestTime = 11) :=
  ⟨(rate_limit_window_exhaustion_blocks ⟨50, 0⟩ 4).1 (by norm_num [rateLimitMax])
      (by norm_num) (by norm_num [rateLimitWindow]),
   (rate_limit_window_exhaustion_blocks ⟨3, 0⟩ 11).2
      (by norm_num [rateLimitWindow])⟩

/-- C3: on a script of 429 responses whose `Retry-After` values parse to
non-negative integers (with `10` as the default when the header is absent),
followed by a non-429 response, `_make_request` performs, per 429, exactly
one sleep of the header's value and one retry with the identical request —
no backoff growth, no attempt cap — and the call's trace and outcome are
those of the final non-429 response alone, prefixed by the wait-and-retry
attempts. -/
theorem make_request_429_wait_and_retry (req : HttpRequest)
    (rs : List HttpResponse) (f : HttpResponse)
    (h429 : ∀ r ∈ rs, r.status = 429)
    (hra : ∀ r ∈ rs, ∃ n, retryAfterOk r = some n ∧ 0 ≤ n)
    (hf : f.status ≠ 429) :
    (∀ r : HttpResponse, r.retryAfter = none → retryAfterOk r = some 10) ∧
    (makeRequest req [f]).1 = [⟨req, none⟩] ∧
    makeRequest req (rs ++ [f]) =
      ((rs.map fun r => ⟨req, retryAfterOk r⟩) ++ (makeRequest req [f]).1,
       (makeRequest req [f]).2) := by
  refine ⟨fun r h => by simp [retryAfterOk, retryAfterValue, h], ?_, ?_⟩
  · by_cases h2 : 200 ≤ f.status ∧ f.status < 300
    · by_cases h204 : f.status = 204
      · simp [makeRequest, hf, h2, h204]
      · simp [makeRequest, hf, h2, h204]
    · simp [makeRequest, hf, h2]
  induction rs with
  | nil => simp
  | cons r rs ih =>
      obtain ⟨n, hok, hnn⟩ := hra r (List.mem_cons_self r rs)
      have hs : r.status = 429 := h429 r (List.mem_cons_self r rs)
      have hval : retryAfterValue r.retryAfter = .ok n := by
        cases hv : retryAfterValue r.retryAfter with
        | error _ => simp [retryAfterOk, hv] at hok
        | ok m => simp [retryAfterOk, hv] at hok; simp [hok]
      have ihh := ih (fun x hx => h429 x (List.mem_cons_of_mem r hx))
        (fun x hx => hra x (List.mem_cons_of_mem r hx))
      simp [makeRequest, hs, hval, not_lt.mpr hnn, ihh, retryAfterOk]

/-- Witness for `make_request_429_wait_and_retry`: two 429s (explicit
`Retry-After: 3`, then an absent header defaulting to 10) before a 200:
three identical attempts, sleeping 3 then 10, returning the 200's body. -/
theorem make_request_429_wait_and_retry_witness :
    (∀ r : HttpResponse, r.retryAfter = none → retryAfterOk r = some 10) ∧
    (makeRequest ⟨"GET", "jobs", none, none⟩ [⟨200, none, .str "ok"⟩]).1 =
      [⟨⟨"GET", "jobs", none, none⟩, none⟩] ∧
    makeRequest ⟨"GET", "jobs", none, none⟩
        ([⟨429, some "3", .null⟩, ⟨429, none, .null⟩] ++ [⟨200, none, .str "ok"⟩]) =
      (([⟨429, some "3", .null⟩, ⟨429, none, .null⟩].map
          fun r => ⟨⟨"GET", "jobs", none, none⟩, retryAfterOk r⟩) ++
        (makeRequest ⟨"GET", "jobs", none, none⟩ [⟨200, none, .str "ok"⟩]).1,
       (makeRequest ⟨"GET", "jobs", none, none⟩ [⟨200, none, .str "ok"⟩]).2) :=
  make_request_429_wait_and_retry ⟨"GET", "jobs", none, none⟩
    [⟨429, some "3", .null⟩, ⟨429, none, .null⟩] ⟨200, none, .str "ok"⟩
    (by decide)
    (by
      intro r hr
      simp only [List.mem_cons, List.not_mem_nil, or_false] at hr
      rcases hr with h | h
      · exact ⟨3, by rw [h]; rfl, by decide⟩
      · exact ⟨10, by rw [h]; rfl, by decide⟩)
    (by decide)

/-- C5: a non-429 response with a 4xx/5xx status makes the very first
attempt raise `httpx.HTTPStatusError` carrying the original status and
body; the rest of the script is never consumed (no retry). -/
theorem make_request_error_not_retried (req : HttpRequest) (r : HttpResponse)
    (rest : List HttpResponse) (h4 : 400 ≤ r.status) (hn : r.status ≠ 429) :
    makeRequest req (r :: rest) =
      ([⟨req, none⟩], .error (.httpStatus r.status r.content)) := by
  have h2 : ¬(200 ≤ r.status ∧ r.status < 300) := by omega
  simp [makeRequest, hn, h2]

/-- Witness for `make_request_error_not_retried`: a 500 with a body raises
with that status and body even though further responses were scripted. -/
theorem make_request_error_not_retried_witness :
    makeRequest ⟨"GET", "jobs", none, none⟩
        (⟨500, none, .str "boom"⟩ :: [⟨200, none, .null⟩]) =
      ([⟨⟨"GET", "jobs", none, none⟩, none⟩],
       .error (.httpStatus 500 (.str "boom"))) :=
  make_request_error_not_retried ⟨"GET", "jobs", none, none⟩
    ⟨500, none, .str "boom"⟩ [⟨200, none, .null⟩] (by decide) (by decide)

/-- C7: a 204 response returns the empty record `{}` — and the empty record
is not `null` — while any other 2xx response returns the response's JSON
content. -/
theorem make_request_204_empty_record (req : HttpRequest) (r : HttpResponse)
    (rest : List HttpResponse) :
    (r.status = 204 →
      makeRequest req (r :: rest) = ([⟨req, none⟩], .ok (.obj []))) ∧
    (200 ≤ r.status → r.status < 300 → r.status ≠ 204 →
      makeRequest req (r :: rest) = ([⟨req, none⟩], .ok r.content)) ∧
    JsonValue.obj [] ≠ JsonValue.null := by
  refine ⟨?_, ?_, fun h => by cases h⟩
  · intro h
    have hn : r.status ≠ 429 := by omega
    simp [makeRequest, hn, h]
  · intro h1 h2 h3
    have hn : r.status ≠ 429 := by omega
    simp [makeRequest, hn, h1, h2, h3]

/-- Witness for `make_request_204_empty_record`: a 204 yields `{}`; a 200
with content yields that content. -/
theorem make_request_204_empty_record_witness :
    makeRequest ⟨"DELETE", "jobs/1", none, none⟩ [⟨204, none, .null⟩] =
      ([⟨⟨"DELETE", "jobs/1", none, none⟩, none⟩], .ok (.obj [])) ∧
    makeRequest ⟨"GET", "jobs", none, none⟩ [⟨200, none, .str "ok"⟩] =
      ([⟨⟨"GET", "jobs", none, none⟩, none⟩], .ok (.str "ok")) :=
  ⟨(make_request_204_empty_record ⟨"DELETE", "jobs/1", none, none⟩
      ⟨204, none, .null⟩ []).1 rfl,
   (make_request_204_empty_record ⟨"GET", "jobs", none, none⟩
      ⟨200, none, .str "ok"⟩ []).2.1 (by decide) (by decide) (by decide)⟩

/-- C10: (a) a 429 whose `Retry-After` value is not an integer string — an
HTTP-date, say — makes `_make_request` raise `int()`'s `ValueError` on the
first attempt instead of waiting and retrying; (b) every retry re-enters
`_make_request` from the top, so a script of `k` 429s before the success
produces `k + 1` attempts, each one a `_rate_limit()` charge, and (c) each
such charge within the window and below the ceiling increments the local
counter by one. -/
theorem retry_after_parse_failure_and_rate_charges (req : HttpRequest)
    (body : JsonValue) (k : Nat) (s : RLState) (now : ℚ) :
    makeRequest req [⟨429, some "Wed, 21 Oct 2015 07:28:00 GMT", body⟩] =
      ([⟨req, none⟩],
       .error (.valueError "Wed, 21 Oct 2015 07:28:00 GMT")) ∧
    (makeRequest req
        (List.replicate k ⟨429, some "1", body⟩ ++ [⟨200, none, body⟩])).1.length
      = k + 1 ∧
    (s.requestCount < rateLimitMax → ¬ now - s.lastRequestTime > rateLimitWindow →
      ((rateLimit s now).2).requestCount = s.requestCount + 1) := by
  refine ⟨?_, ?_, ?_⟩
  · have hp : retryAfterValue (some "Wed, 21 Oct 2015 07:28:00 GMT") =
        .error (.valueError "Wed, 21 Oct 2015 07:28:00 GMT") := rfl
    simp [makeRequest, hp]
  · induction k with
    | zero => simp [makeRequest]
    | succ k ih =>
        have hv : retryAfterValue (some "1") = .ok 1 := rfl
        simp only [List.replicate_succ, List.cons_append, makeRequest, hv,
          List.length_cons] at ih ⊢
        norm_num at ih ⊢
        exact ih
  · intro h1 h2
    have hge : ¬ s.requestCount ≥ rateLimitMax := not_le.mpr h1
    simp [rateLimit, h2, hge]

/-- Witness for `retry_after_parse_failure_and_rate_charges` at a concrete
request, two 429s, and a mid-window state with 3 counted calls. -/
theorem retry_after_parse_failure_and_rate_charges_witness :
    makeRequest ⟨"GET", "candidates", none, none⟩
        [⟨429, some "Wed, 21 Oct 2015 07:28:00 GMT", .null⟩] =
      ([⟨⟨"GET", "candidates", none, none⟩, none⟩],
       .error (.valueError "Wed, 21 Oct 2015 07:28:00 GMT")) ∧
    (makeRequest ⟨"GET", "candidates", none, none⟩
        (List.replicate 2 ⟨429, some "1", .null⟩ ++ [⟨200, none, .null⟩])).1.length
      = 2 + 1 ∧
    ((rateLimit ⟨3, 0⟩ 5).2).requestCount = 3 + 1 :=
  ⟨(retry_after_parse_failure_and_rate_charges ⟨"GET", "candidates", none, none⟩
      .null 2 ⟨3, 0⟩ 5).1,
   (retry_after_parse_failure_and_rate_charges ⟨"GET", "candidates", none, none⟩
      .null 2 ⟨3, 0⟩ 5).2.1,
   (retry_after_parse_failure_and_rate_charges ⟨"GET", "candidates", none, none⟩
      .null 2 ⟨3, 0⟩ 5).2.2 (by norm_num [rateLimitMax])
      (by norm_num [rateLimitWindow])⟩

/-- C6: construction with no resolvable key (argument and environment both
absent or empty) raises `ValueError("Greenhouse API key is required")` — the
spec's `ConfigurationError`; with a resolvable key (a truthy argument, or a
truthy `GREENHOUSE_API_KEY` when the argument is falsy) it succeeds, the
authorization header is `"Basic "` ++ base64 of `"<key>:"`, and the base URL
is `GREENHOUSE_BASE_URL` when set, else the production default. -/
theorem client_init_key_and_auth_header (a e b : Option String) (k : String) :
    ((a = none ∨ a = some "") → (e = none ∨ e = some "") →
      clientInit a e b = .error "Greenhouse API key is required") ∧
    (k ≠ "" →
      clientInit (some k) e b = .ok
        { apiKey := k
          baseUrl := b.getD defaultBaseUrl
          authorizationHeader := "Basic " ++ base64Encode (utf8Bytes (k ++ ":"))
          contentTypeHeader := "application/json" }) ∧
    (k ≠ "" →
      (a = none ∨ a = some "") →
      clientInit a (some k) b = .ok
        { apiKey := k
          baseUrl := b.getD defaultBaseUrl
          authorizationHeader := "Basic " ++ base64Encode (utf8Bytes (k ++ ":"))
          contentTypeHeader := "application/json" }) := by
  refine ⟨?_, ?_, ?_⟩
  · rintro (ha | ha) (he | he) <;> subst ha <;> subst he <;> rfl
  · intro hk
    simp [clientInit, hk]
  · rintro hk (ha | ha) <;> subst ha <;> simp [clientInit, hk]

/-- Witness for `client_init_key_and_auth_header`: nothing resolvable fails;
key `"abc"` (as argument, and from the environment with an empty argument)
yields `Authorization: Basic YWJjOg==` and the default base URL. -/
theorem client_init_key_and_auth_header_witness :
    clientInit none none none = .error "Greenhouse API key is required" ∧
    clientInit (some "abc") none none = .ok
      { apiKey := "abc"
        baseUrl := (none : Option String).getD defaultBaseUrl
        authorizationHeader := "Basic " ++ base64Encode (utf8Bytes ("abc" ++ ":"))
        contentTypeHeader := "application/json" } ∧
    clientInit (some "") (some "abc") none = .ok
      { apiKey := "abc"
        baseUrl := (none : Option String).getD defaultBaseUrl
        authorizationHeader := "Basic " ++ base64Encode (utf8Bytes ("abc" ++ ":"))
        contentTypeHeader := "application/json" } ∧
    "Basic " ++ base64Encode (utf8Bytes ("abc" ++ ":")) = "Basic YWJjOg==" :=
  ⟨(client_init_key_and_auth_header none none none "abc").1
      (Or.inl rfl) (Or.inl rfl),
   (client_init_key_and_auth_header none none none "abc").2.1 (by decide),
   (client_init_key_and_auth_header (some "") none none "abc").2.2 (by decide)
      (Or.inr rfl),
   by decide⟩

/-- C4: for the list endpoints, `per_page` and `page` always appear in the
assembled query parameters, and an optional filter the caller did not supply
(Python `None`) never appears as a key at all. -/
theorem list_params_omit_unsupplied_filters (pp pg : Int)
    (cb ca st em : Option String) (jid cid : Option Int)
    (cids : Option (List Int)) :
    ("per_page" ∈ keys (list_jobs_params pp pg cb ca st) ∧
     "page" ∈ keys (list_jobs_params pp pg cb ca st) ∧
     "per_page" ∈ keys (list_candidates_params pp pg cb ca em cids) ∧
     "page" ∈ keys (list_candidates_params pp pg cb ca em cids) ∧
     "per_page" ∈ keys (list_applications_params pp pg cb ca jid cid st) ∧
     "page" ∈ keys (list_applications_params pp pg cb ca jid cid st) ∧
     "per_page" ∈ keys (list_users_params pp pg em) ∧
     "page" ∈ keys (list_users_params pp pg em) ∧
     "per_page" ∈ keys (list_departments_params pp pg) ∧
     "page" ∈ keys (list_departments_params pp pg)) ∧
    (cb = none → "created_before" ∉ keys (list_jobs_params pp pg cb ca st)) ∧
    (ca = none → "created_after" ∉ keys (list_jobs_params pp pg cb ca st)) ∧
    (st = none → "status" ∉ keys (list_jobs_params pp pg cb ca st)) ∧
    (cb = none →
      "created_before" ∉ keys (list_candidates_params pp pg cb ca em cids)) ∧
    (ca = none →
      "created_after" ∉ keys (list_candidates_params pp pg cb ca em cids)) ∧
    (em = none → "email" ∉ keys (list_candidates_params pp pg cb ca em cids)) ∧
    (cids = none →
      "candidate_ids" ∉ keys (list_candidates_params pp pg cb ca em cids)) ∧
    (cb = none →
      "created_before" ∉ keys (list_applications_params pp pg cb ca jid cid st)) ∧
    (ca = none →
      "created_after" ∉ keys (list_applications_params pp pg cb ca jid cid st)) ∧
    (jid = none →
      "job_id" ∉ keys (list_applications_params pp pg cb ca jid cid st)) ∧
    (cid = none →
      "candidate_id" ∉ keys (list_applications_params pp pg cb ca jid cid st)) ∧
    (st = none →
      "status" ∉ keys (list_applications_params pp pg cb ca jid cid st)) ∧
    (em = none → "email" ∉ keys (list_users_params pp pg em)) := by
  refine ⟨?_, ?_, ?_, ?_, ?_, ?_, ?_, ?_, ?_, ?_, ?_, ?_, ?_, ?_⟩
  · simp [list_jobs_params, list_candidates_params, list_applications_params,
      list_users_params, list_departments_params, keys_append, keys]
  all_goals
    intro h hm
    subst h
    simp [list_jobs_params, list_candidates_params, list_applications_params,
      list_users_params, keys_append, keys_cons, keys_nil,
      mem_keys_optStrParam, mem_keys_optIntParam,
      mem_keys_candidateIdsParam] at hm

/-- Witness for `list_params_omit_unsupplied_filters`: with every optional
filter left unsupplied, the assembled parameters hold `per_page` and `page`
and no filter key. -/
theorem list_params_omit_unsupplied_filters_witness :
    ("per_page" ∈ keys (list_jobs_params 50 1 none none none) ∧
     "page" ∈ keys (list_jobs_params 50 1 none none none) ∧
     "per_page" ∈ keys (list_candidates_params 50 1 none none none none) ∧
     "page" ∈ keys (list_candidates_params 50 1 none none none none) ∧
     "per_page" ∈ keys (list_applications_params 50 1 none none none none none) ∧
     "page" ∈ keys (list_applications_params 50 1 none none none none none) ∧
     "per_page" ∈ keys (list_users_params 50 1 none) ∧
     "page" ∈ keys (list_users_params 50 1 none) ∧
     "per_page" ∈ keys (list_departments_params 50 1) ∧
     "page" ∈ keys (list_departments_params 50 1)) ∧
    "created_before" ∉ keys (list_jobs_params 50 1 none none none) ∧
    "created_after" ∉ keys (list_jobs_params 50 1 none none none) ∧
    "status" ∉ keys (list_jobs_params 50 1 none none none) ∧
    "created_before" ∉ keys (list_candidates_params 50 1 none none none none) ∧
    "created_after" ∉ keys (list_candidates_params 50 1 none none none none) ∧
    "email" ∉ keys (list_candidates_params 50 1 none none none none) ∧
    "candidate_ids" ∉ keys (list_candidates_params 50 1 none none none none) ∧
    "created_before" ∉
      keys (list_applications_params 50 1 none none none none none) ∧
    "created_after" ∉
      keys (list_applications_params 50 1 none none none none none) ∧
    "job_id" ∉ keys (list_applications_params 50 1 none none none none none) ∧
    "candidate_id" ∉
      keys (list_applications_params 50 1 none none none none none) ∧
    "status" ∉ keys (list_applications_params 50 1 none none none none none) ∧
    "email" ∉ keys (list_users_params 50 1 none) := by
  have h := list_params_omit_unsupplied_filters 50 1 none none none none
    none none none
  exact ⟨h.1, h.2.1 rfl, h.2.2.1 rfl, h.2.2.2.1 rfl, h.2.2.2.2.1 rfl,
    h.2.2.2.2.2.1 rfl, h.2.2.2.2.2.2.1 rfl, h.2.2.2.2.2.2.2.1 rfl,
    h.2.2.2.2.2.2.2.2.1 rfl, h.2.2.2.2.2.2.2.2.2.1 rfl,
    h.2.2.2.2.2.2.2.2.2.2.1 rfl, h.2.2.2.2.2.2.2.2.2.2.2.1 rfl,
    h.2.2.2.2.2.2.2.2.2.2.2.2.1 rfl, h.2.2.2.2.2.2.2.2.2.2.2.2.2 rfl⟩

/-- C8: the `create_candidate` tool with a non-empty email and no phone
builds a body containing
`email_addresses = [{"value": email, "type": "personal"}]` and no
`phone_numbers` key, and that shaped body is exactly what is forwarded —
`POST candidates` with it as the JSON payload and nothing else changed. -/
theorem create_candidate_shaping (fn ln e : String)
    (company title : Option String) (tags : Option (List String))
    (he : e ≠ "") :
    ("email_addresses",
        JsonValue.arr [.obj [("value", .str e), ("type", .str "personal")]]) ∈
      create_candidate_body fn ln (some e) none company title tags ∧
    "phone_numbers" ∉
      keys (create_candidate_body fn ln (some e) none company title tags) ∧
    tool_create_candidate_request fn ln (some e) none company title tags =
      { method := "POST", endpoint := "candidates", params := none
        jsonData :=
          some (create_candidate_body fn ln (some e) none company title tags) } := by
  refine ⟨?_, ?_, rfl⟩
  · simp [create_candidate_body, emailAddressesField, he]
  · intro hm
    simp [create_candidate_body, keys_append, keys_cons, keys_nil,
      mem_keys_emailAddressesField, mem_keys_phoneNumbersField,
      mem_keys_optStrParam, mem_keys_optTagsField] at hm

/-- Witness for `create_candidate_shaping` at the spec's example
`create_candidate(first_name="Ada", last_name="Lovelace", email="a@x.com")`. -/
theorem create_candidate_shaping_witness :
    ("email_addresses",
        JsonValue.arr
          [.obj [("value", .str "a@x.com"), ("type", .str "personal")]]) ∈
      create_candidate_body "Ada" "Lovelace" (some "a@x.com") none none none
        none ∧
    "phone_numbers" ∉
      keys (create_candidate_body "Ada" "Lovelace" (some "a@x.com") none none
        none none) ∧
    tool_create_candidate_request "Ada" "Lovelace" (some "a@x.com") none none
        none none =
      { method := "POST", endpoint := "candidates", params := none
        jsonData :=
          some (create_candidate_body "Ada" "Lovelace" (some "a@x.com") none
            none none none) } :=
  create_candidate_shaping "Ada" "Lovelace" "a@x.com" none none none
    (by decide)

/-- C9: a caller-supplied falsy optional is treated exactly like omission:
`job_id=0` / `candidate_id=0` add no query parameter, `to_stage_id=0` is
left out of the advance body, `candidate_ids=[]` is omitted, and
`update_candidate` with everything unset or falsy sends a `PATCH` whose
body is the empty record. -/
theorem falsy_optionals_equal_omission (pp pg : Int)
    (cb ca st em : Option String) (jid cid : Option Int) (fsid cidI : Int) :
    list_applications_params pp pg cb ca (some 0) cid st =
      list_applications_params pp pg cb ca none cid st ∧
    list_applications_params pp pg cb ca jid (some 0) st =
      list_applications_params pp pg cb ca jid none st ∧
    advance_application_body fsid (some 0) = [("from_stage_id", .num fsid)] ∧
    advance_application_body fsid none = [("from_stage_id", .num fsid)] ∧
    list_candidates_params pp pg cb ca em (some []) =
      list_candidates_params pp pg cb ca em none ∧
    update_candidate_body none none none none none none none = [] ∧
    update_candidate_body (some "") (some "") (some "") (some "") (some "")
      (some "") (some []) = [] ∧
    tool_update_candidate_request cidI none none none none none none none =
      { method := "PATCH", endpoint := "candidates/" ++ toString cidI,
        params := none, jsonData := some [] } := by
  refine ⟨?_, ?_, rfl, rfl, ?_, rfl, rfl, rfl⟩
  · simp [list_applications_params, optIntParam]
  · simp [list_applications_params, optIntParam]
  · simp [list_candidates_params, candidateIdsParam]

end GreenhouseMCP
